import Mathlib

/-!
Shallow embedding of the build-time og:image pipeline of `nuxt-og-image`
(file `src/module.ts`): the `prerender:generate` hook that extracts a
directive from rendered markup, resolves route rules and queues pages,
and the `captureScreenshots` batch that drains the queue against a
preview server and a browser session.
-/

namespace NuxtOgImage

/-! ### String helpers

Character-list implementations of the JavaScript string operations the
source uses (`String.prototype.includes`, `split`, `replace`,
`endsWith`, `trim`), kept structurally recursive so that concrete
instances evaluate inside the kernel. -/

/-- Does the pattern occur as a leading segment of the list, and if so,
what remains after it? -/
def dropPat : List Char → List Char → Option (List Char)
  | [], l => some l
  | _ :: _, [] => none
  | p :: ps, c :: cs => if c = p then dropPat ps cs else none

/-- Split at the first occurrence of a pattern: the characters before it
and the characters after it. `none` when the pattern does not occur. -/
def splitFirst (pat : List Char) : List Char → Option (List Char × List Char)
  | [] =>
    match dropPat pat [] with
    | some rest => some ([], rest)
    | none => none
  | c :: cs =>
    match dropPat pat (c :: cs) with
    | some rest => some ([], rest)
    | none =>
      match splitFirst pat cs with
      | some (pre, post) => some (c :: pre, post)
      | none => none

/-- JavaScript `s.includes(pat)`. -/
def jsIncludes (s pat : String) : Bool := (splitFirst pat.toList s.toList).isSome

/-- JavaScript `s.split(pat)[1]`: the segment between the first and the
second occurrence of the pattern (everything after the first occurrence
when there is no second one); `none` (JS `undefined`) when the pattern
does not occur at all. -/
def jsSplitSecond (s pat : String) : Option String :=
  match splitFirst pat.toList s.toList with
  | none => none
  | some (_, post) =>
    match splitFirst pat.toList post with
    | some (mid, _) => some mid.asString
    | none => some post.asString

/-- JavaScript `s.replace(pat, repl)`: replace the first occurrence. -/
def jsReplaceFirst (s pat repl : String) : String :=
  match splitFirst pat.toList s.toList with
  | some (pre, post) => pre.asString ++ repl ++ post.asString
  | none => s

/-- Is the first list a leading segment of the second? -/
def leadsWith : List Char → List Char → Bool
  | [], _ => true
  | _ :: _, [] => false
  | p :: ps, c :: cs => p == c && leadsWith ps cs

/-- JavaScript `s.startsWith(pat)`. -/
def jsStartsWith (s pat : String) : Bool := leadsWith pat.toList s.toList

/-- JavaScript `s.endsWith(pat)`. -/
def jsEndsWith (s pat : String) : Bool := leadsWith pat.toList.reverse s.toList.reverse

def isWS (c : Char) : Bool := c == ' ' || c == '\n' || c == '\t' || c == '\r'

/-- JavaScript `s.trim()` (restricted to the common whitespace characters). -/
def jsTrim (s : String) : String :=
  (((s.toList.dropWhile isWS).reverse.dropWhile isWS).reverse).asString

/-- Models `joinURL` from the `ufo` package for the inputs the pipeline
produces: join two path segments with exactly one slash between them. -/
def joinURL (a b : String) : String :=
  let a' := if jsEndsWith a "/" then a.toList.dropLast.asString else a
  let b' := if jsStartsWith b "/" then b else "/" ++ b
  a' ++ b'

/-- Models `relative` from the `pathe` package for the inputs the
pipeline produces: strip the base directory from a path underneath it. -/
def relativePath (base p : String) : String :=
  if jsStartsWith p (base ++ "/") then (p.toList.drop (base.toList.length + 1)).asString
  else p

/-! ### Data model: directives, route rules, effective options -/

/-- The page-scoped og:image configuration fragment: the shape shared by
an extracted directive and by a route-rule override (spec section 3).
Absent fields are `none`, matching absent object keys in the source. -/
structure OgFragment where
  component : Option String := none
  width : Option Nat := none
  height : Option Nat := none
  provider : Option String := none
  static : Option Bool := none
deriving Repr, DecidableEq

/-- The `ogImage` value of a nitro route rule: the suppression sentinel
`false` or an override fragment. -/
inductive OgRule where
  | suppress
  | frag (f : OgFragment)
deriving Repr, DecidableEq

/-- The slice of `NitroRouteRules` the module reads: its `ogImage` key. -/
structure NitroRouteRules where
  ogImage : Option OgRule := none
deriving Repr, DecidableEq

/-- `defu` on two fragments, left argument priority: a defined left
field keeps its value, an undefined one takes the right value. -/
def defuFrag (a b : OgFragment) : OgFragment where
  component := a.component <|> b.component
  width := a.width <|> b.width
  height := a.height <|> b.height
  provider := a.provider <|> b.provider
  static := a.static <|> b.static

/-- `defu` on the `ogImage` key, left argument priority. `false` is not
a plain object, so whichever side defines the key first wins outright;
two fragments are merged recursively. -/
def defuOgRule : Option OgRule → Option OgRule → Option OgRule
  | none, b => b
  | some .suppress, _ => some .suppress
  | some (.frag f), some (.frag g) => some (.frag (defuFrag f g))
  | some (.frag f), some .suppress => some (.frag f)
  | some (.frag f), none => some (.frag f)

def defuRules (a b : NitroRouteRules) : NitroRouteRules where
  ogImage := defuOgRule a.ogImage b.ogImage

/-- `defu({}, ...list)`: fold the variadic arguments left to right, the
leftmost argument having the highest priority. -/
def defuAll (l : List NitroRouteRules) : NitroRouteRules :=
  l.foldl defuRules {}

/-- Line 280 of `module.ts`:
`defu({}, ..._routeRulesMatcher.matchAll(ctx.route).reverse())`. -/
def resolveRouteRules (ms : List NitroRouteRules) : NitroRouteRules :=
  defuAll ms.reverse

/-! ### Directive extraction (modelled) and the prerender hook -/

/-- Modelled from the spec: rendered markup carrying at most one
uniquely delimited directive marker (the functions that parse and strip
it live in `src/runtime/utils`, outside the sources provided). The
markup is its base text plus the optional embedded directive payload. -/
structure Html where
  base : String
  directive : Option OgFragment
deriving Repr, DecidableEq

/-- Modelled from the spec: return the parsed directive payload when the
marker is present, `none` otherwise. -/
def extractOgImageOptions (h : Html) : Option OgFragment := h.directive

/-- Modelled from the spec: return the markup with the directive marker
stripped, unchanged when no marker is present. -/
def stripOgImageOptions (h : Html) : Html := { h with directive := none }

/-- The prerender context handed to the `prerender:generate` hook: the
route, the rendered contents (`none` for missing or empty contents,
which are falsy in the source) and the output file name. -/
structure PrerenderCtx where
  route : String
  contents : Option Html
  fileName : String
deriving Repr, DecidableEq

/-- The effective merged options pushed onto the screenshot queue:
`{ path: ctx.route, ...extractedOptions, ...(routeRules.ogImage || {}), ctx }`. -/
structure OgImageOptions where
  path : String
  component : Option String
  width : Option Nat
  height : Option Nat
  provider : Option String
  static : Option Bool
  ctx : PrerenderCtx
deriving Repr, DecidableEq

/-- The object spread building the effective options (lines 284 to 289):
fields defined by the route-rule override shadow the directive fields,
`routeRules.ogImage || {}` degrading `false` or `undefined` to the empty
fragment. -/
def spreadOptions (route : String) (ex : OgFragment) (rr : Option OgRule)
    (ctx : PrerenderCtx) : OgImageOptions :=
  let r : OgFragment := match rr with
    | some (.frag f) => f
    | _ => {}
  { path := route
    component := r.component <|> ex.component
    width := r.width <|> ex.width
    height := r.height <|> ex.height
    provider := r.provider <|> ex.provider
    static := r.static <|> ex.static
    ctx := ctx }

def OG_ROUTE_SUFFIX : String := "__og_image__/html"

/-- The `prerender:generate` hook (lines 267 to 294 of `module.ts`),
with the radix matcher passed in as the `matchAll` capability. Returns
the updated render context (the stripped contents are written back) and
the updated screenshot queue. `generate` is `nuxt.options._generate`. -/
def prerenderGenerate (generate : Bool) (matchAll : String → List NitroRouteRules)
    (queue : List OgImageOptions) (ctx : PrerenderCtx) :
    PrerenderCtx × List OgImageOptions :=
  if jsIncludes ctx.route "." || jsEndsWith ctx.route OG_ROUTE_SUFFIX then (ctx, queue)
  else
    match ctx.contents with
    | none => (ctx, queue)
    | some html =>
      let extractedOptions := extractOgImageOptions html
      let ctx' : PrerenderCtx := { ctx with contents := some (stripOgImageOptions html) }
      let routeRules := resolveRouteRules (matchAll ctx.route)
      match extractedOptions with
      | none => (ctx', queue)
      | some ex =>
        if routeRules.ogImage == some OgRule.suppress then (ctx', queue)
        else
          let options := spreadOptions ctx.route ex routeRules.ogImage ctx'
          if (generate || options.static == some true) && options.provider == some "browser"
          then (ctx', queue ++ [options])
          else (ctx', queue)

/-! ### Server readiness wait -/

/-- The marker tested with `data.includes(...)` on line 310. -/
def READY_CHECK : String := "Accepting connections at"

/-- The marker split on at line 312 (note the trailing space). -/
def READY_SPLIT : String := "Accepting connections at "

/-- The outcome of the readiness promise (lines 308 to 315): the
executor only ever calls `resolve`, so the promise either resolves with
`data.toString().split(READY_SPLIT)[1]` of some data chunk (`none`
modelling a resolved value of JS `undefined`) or stays pending forever. -/
inductive PromiseOutcome where
  | resolved (value : Option String)
  | pending
deriving Repr, DecidableEq

/-- The readiness wait over the finite sequence of stdout data chunks
the server subprocess emits before its stream closes: the first chunk
containing the marker resolves the promise; if no chunk ever does, the
promise never settles. -/
def waitForHost : List String → PromiseOutcome
  | [] => .pending
  | c :: cs =>
    if jsIncludes c READY_CHECK then .resolved (jsSplitSecond c READY_SPLIT)
    else waitForHost cs

/-! ### The screenshot batch -/

/-- How the `createBrowser()` call behaves: throw, resolve to `null`, or
produce a usable session. -/
inductive BrowserLaunch where
  | launchThrows
  | launchNull
  | launchOk
deriving Repr, DecidableEq

/-- The external world a batch run interacts with: the stdout chunks of
the spawned `npx serve` subprocess, the browser launch outcome, and the
per-entry success of the opaque `screenshot`, `mkdirp` and `writeFile`
calls (indexed by queue position). -/
structure CaptureEnv where
  hostChunks : List String
  browser : BrowserLaunch
  screenshotOk : Nat → Bool
  mkdirpOk : Nat → Bool
  writeOk : Nat → Bool

/-- One console line of the per-entry report (line 341 to 343). -/
structure ReportLine where
  glyph : String
  text : String
  isError : Bool
  pct : Nat
deriving Repr, DecidableEq

/-- Line 323: join the public dir with the entry file name, its trailing
index.html removed, and the __og_image__ directory segment. -/
def entryDirname (publicDir fileName : String) : String :=
  joinURL publicDir (jsReplaceFirst fileName "index.html" "" ++ "__og_image__/")

/-- Line 324: join the entry directory with the fixed og.png file name. -/
def entryFilename (publicDir fileName : String) : String :=
  joinURL (entryDirname publicDir fileName) "/og.png"

/-- JavaScript `Math.round(((k + 1) / total) * 100)` over naturals. -/
def roundPct (k total : Nat) : Nat := ((k + 1) * 200 + total) / (2 * total)

/-- The body of the drain loop for the entry at index `k` (lines 320 to
343): the screenshot URL attempted, the `hasError` flag of the
resulting capture (a `mkdirp` failure is absorbed by the inner empty
catch and the write is attempted anyway, so only a failed `screenshot`
or a failed `writeFile` marks the entry as failed), and the report
line. -/
def processEntry (env : CaptureEnv) (publicDir host : String) (total k : Nat)
    (entry : OgImageOptions) : String × Bool × ReportLine :=
  let dirname := entryDirname publicDir entry.ctx.fileName
  let filename := joinURL dirname "/og.png"
  let hasError := !(env.screenshotOk k && env.writeOk k)
  (host ++ entry.path, hasError,
    { glyph := if k == total - 1 then "└─" else "├─"
      text := relativePath publicDir filename
      isError := hasError
      pct := roundPct k total })

/-- The `for (const k in screenshotQueue)` loop: entries processed one
after another, strictly in queue order, each contributing one capture
attempt, one result and one report line. -/
def drainFrom (env : CaptureEnv) (publicDir host : String) (total k : Nat) :
    List OgImageOptions → List (String × Bool × ReportLine)
  | [] => []
  | e :: rest =>
    processEntry env publicDir host total k e :: drainFrom env publicDir host total (k + 1) rest

/-- The observable trace of one `captureScreenshots()` invocation:
counts of subprocess spawns and kills, of `createBrowser` calls and
`browser.close()` calls, the log messages, the ordered capture attempts
with their results and report lines, whether the invocation is
suspended forever on the readiness await, and the queue value after the
invocation. -/
structure RunResult where
  spawnCount : Nat
  killCount : Nat
  browserCreateCount : Nat
  browserCloseCount : Nat
  infoLogged : Bool
  failMsgLogged : Bool
  attempts : List String
  results : List Bool
  lines : List ReportLine
  hung : Bool
  finalQueue : List OgImageOptions
deriving Repr, DecidableEq

/-- `captureScreenshots` (lines 299 to 358 of `module.ts`). An empty
queue returns before any setup. Otherwise the server subprocess is
spawned and the readiness promise awaited: if it never resolves the
invocation hangs there (nothing further runs, the finally clause
included). On a resolved `undefined` the `.trim()` call throws, the
outer catch swallows it and the finally clause kills the subprocess.
Otherwise `createBrowser()` runs: a throw is caught by the outer catch,
a `null` browser logs the failure message and skips the loop, and a
usable session drains the whole queue, the per-entry try/catch keeping
every entry processed. The finally clause closes the browser session
when one exists and kills the subprocess; afterwards the queue is reset
to empty. -/
def captureScreenshots (env : CaptureEnv) (publicDir : String)
    (queue : List OgImageOptions) : RunResult :=
  if queue.length == 0 then
    { spawnCount := 0, killCount := 0, browserCreateCount := 0, browserCloseCount := 0
      infoLogged := false, failMsgLogged := false
      attempts := [], results := [], lines := []
      hung := false, finalQueue := queue }
  else
    match waitForHost env.hostChunks with
    | .pending =>
      { spawnCount := 1, killCount := 0, browserCreateCount := 0, browserCloseCount := 0
        infoLogged := false, failMsgLogged := false
        attempts := [], results := [], lines := []
        hung := true, finalQueue := queue }
    | .resolved none =>
      { spawnCount := 1, killCount := 1, browserCreateCount := 0, browserCloseCount := 0
        infoLogged := false, failMsgLogged := false
        attempts := [], results := [], lines := []
        hung := false, finalQueue := [] }
    | .resolved (some raw) =>
      let host := jsTrim raw
      match env.browser with
      | .launchThrows =>
        { spawnCount := 1, killCount := 1, browserCreateCount := 1, browserCloseCount := 0
          infoLogged := false, failMsgLogged := false
          attempts := [], results := [], lines := []
          hung := false, finalQueue := [] }
      | .launchNull =>
        { spawnCount := 1, killCount := 1, browserCreateCount := 1, browserCloseCount := 0
          infoLogged := false, failMsgLogged := true
          attempts := [], results := [], lines := []
          hung := false, finalQueue := [] }
      | .launchOk =>
        let proc := drainFrom env publicDir host queue.length 0 queue
        { spawnCount := 1, killCount := 1, browserCreateCount := 1, browserCloseCount := 1
          infoLogged := true, failMsgLogged := false
          attempts := proc.map (fun t => t.1)
          results := proc.map (fun t => t.2.1)
          lines := proc.map (fun t => t.2.2)
          hung := false, finalQueue := [] }

/-! ### Derived notions used to state the cascade claim -/

/-- The first defined value in a list of optional values. -/
def firstSome {α : Type} : List (Option α) → Option α
  | [] => none
  | some v :: _ => some v
  | none :: rest => firstSome rest

/-- The last defined value in a list of optional values. With a match
list ordered least specific first, this picks the value of the most
specific element that defines the field. -/
def lastSome {α : Type} (l : List (Option α)) : Option α := firstSome l.reverse

/-! ### Concrete fixtures used by the witnesses below -/

/-- A rendered page carrying a browser-provider directive. -/
def wHtml : Html where
  base := "<html><body>page</body></html>"
  directive := some { provider := some "browser", static := some true }

/-- A rendered page without any directive marker. -/
def wHtmlNoDir : Html where
  base := "<html><body>plain</body></html>"
  directive := none

def wCtxA : PrerenderCtx where
  route := "/about"
  contents := some wHtml
  fileName := "about/index.html"

def wCtxNoDir : PrerenderCtx where
  route := "/plain"
  contents := some wHtmlNoDir
  fileName := "plain/index.html"

/-- A fully merged queue entry for path `p` with output file `f`. -/
def wEntry (p f : String) : OgImageOptions where
  path := p
  component := some "OgImageBasic"
  width := some 1200
  height := some 630
  provider := some "browser"
  static := some true
  ctx := { route := p, contents := none, fileName := f }

def wChunk : String := "Accepting connections at http://localhost:3000\n"

/-- A healthy batch environment: the server becomes ready on its second
stdout chunk, the browser launches, every capture and write succeeds. -/
def wEnvOk : CaptureEnv where
  hostChunks := ["serving", wChunk]
  browser := BrowserLaunch.launchOk
  screenshotOk := fun _ => true
  mkdirpOk := fun _ => true
  writeOk := fun _ => true

/-- Scenario C environment: the capture of the entry at index 1 throws,
every other step succeeds. -/
def wEnvFailSecond : CaptureEnv where
  hostChunks := [wChunk]
  browser := BrowserLaunch.launchOk
  screenshotOk := fun k => k != 1
  mkdirpOk := fun _ => true
  writeOk := fun _ => true

/-- A worst-case environment: the browser launch throws and every
per-entry operation would fail. -/
def wEnvThrow : CaptureEnv where
  hostChunks := [wChunk]
  browser := BrowserLaunch.launchThrows
  screenshotOk := fun _ => false
  mkdirpOk := fun _ => false
  writeOk := fun _ => false

/-! ### Helper lemmas -/

theorem firstSome_cons {α : Type} (x : Option α) (l : List (Option α)) :
    firstSome (x :: l) = (x <|> firstSome l) := by
  cases x <;> rfl

theorem foldl_defuFrag_field {α : Type} (g : OgFragment → Option α)
    (hg : ∀ a b, g (defuFrag a b) = (g a <|> g b)) :
    ∀ (l : List OgFragment) (a : OgFragment),
      g (l.foldl defuFrag a) = (g a <|> firstSome (l.map g)) := by
  intro l
  induction l with
  | nil => intro a; cases h : g a <;> simp [firstSome, h]
  | cons f rest ih =>
    intro a
    simp only [List.foldl_cons, List.map_cons]
    rw [ih, hg, firstSome_cons]
    cases g a <;> cases g f <;> simp

theorem foldl_frag_rules (fs : List OgFragment) :
    ∀ (a : OgFragment),
      (List.foldl defuRules { ogImage := some (OgRule.frag a) }
          (fs.map (fun f => ({ ogImage := some (OgRule.frag f) } : NitroRouteRules)))).ogImage
        = some (OgRule.frag (fs.foldl defuFrag a)) := by
  induction fs with
  | nil => intro a; rfl
  | cons f rest ih =>
    intro a
    simp only [List.map_cons, List.foldl_cons]
    exact ih (defuFrag a f)

theorem drainFrom_length (env : CaptureEnv) (pd host : String) (total : Nat) :
    ∀ (q : List OgImageOptions) (k : Nat),
      (drainFrom env pd host total k q).length = q.length := by
  intro q
  induction q with
  | nil => intro k; rfl
  | cons e rest ih => intro k; simp [drainFrom, ih]

theorem drainFrom_urls (env : CaptureEnv) (pd host : String) (total : Nat) :
    ∀ (q : List OgImageOptions) (k : Nat),
      (drainFrom env pd host total k q).map (fun t => t.1)
        = q.map (fun e => host ++ e.path) := by
  intro q
  induction q with
  | nil => intro k; rfl
  | cons e rest ih => intro k; simp [drainFrom, processEntry, ih]

theorem drainFrom_texts (env : CaptureEnv) (pd host : String) (total : Nat) :
    ∀ (q : List OgImageOptions) (k : Nat),
      (drainFrom env pd host total k q).map (fun t => t.2.2.text)
        = q.map (fun e => relativePath pd (entryFilename pd e.ctx.fileName)) := by
  intro q
  induction q with
  | nil => intro k; rfl
  | cons e rest ih => intro k; simp [drainFrom, processEntry, entryFilename, ih]

theorem drainFrom_results (env : CaptureEnv) (pd host : String) (total : Nat) :
    ∀ (q : List OgImageOptions) (k : Nat),
      (drainFrom env pd host total k q).map (fun t => t.2.1)
        = (List.range q.length).map
            (fun i => !(env.screenshotOk (k + i) && env.writeOk (k + i))) := by
  intro q
  induction q with
  | nil => intro k; rfl
  | cons e rest ih =>
    intro k
    simp only [drainFrom, List.map_cons, List.length_cons, List.range_succ_eq_map,
      List.map_map, ih]
    congr 1
    apply List.map_congr_left
    intro i _
    have hki : k + 1 + i = k + (i + 1) := by omega
    simp [Function.comp, hki]

/-! ### The claims -/

/-- Claim C1: during the prerender pass an entry is appended to the
screenshot queue only if the effective merged options have provider
equal to browser AND (the run is a full-site generate run OR the
effective static flag is true); any page failing this condition is
never queued. Every invocation of the hook either leaves the queue
unchanged or appends exactly one entry satisfying the condition. -/
theorem c1_queue_push_condition (generate : Bool)
    (matchAll : String → List NitroRouteRules)
    (queue : List OgImageOptions) (ctx : PrerenderCtx) :
    (prerenderGenerate generate matchAll queue ctx).2 = queue ∨
    ∃ o, (prerenderGenerate generate matchAll queue ctx).2 = queue ++ [o] ∧
      o.provider = some "browser" ∧ (generate = true ∨ o.static = some true) := by
  unfold prerenderGenerate
  split
  · exact Or.inl rfl
  · split
    · exact Or.inl rfl
    · dsimp only
      split
      · exact Or.inl rfl
      · split
        · exact Or.inl rfl
        · split
          · rename_i hcond
            rcases Bool.and_eq_true _ _ |>.mp hcond with ⟨hor, hprov⟩
            refine Or.inr ⟨_, rfl, beq_iff_eq.mp hprov, ?_⟩
            rcases Bool.or_eq_true _ _ |>.mp hor with h | h
            · exact Or.inl h
            · exact Or.inr (beq_iff_eq.mp h)
          · exact Or.inl rfl

/-- Claim C2: when the matching route rules merge to the suppression
sentinel (ogImage equal to false), the route produces no queue entry,
even when a directive was extracted from its markup. -/
theorem c2_route_rule_suppression (generate : Bool)
    (matchAll : String → List NitroRouteRules)
    (queue : List OgImageOptions) (ctx : PrerenderCtx)
    (h : (resolveRouteRules (matchAll ctx.route)).ogImage = some OgRule.suppress) :
    (prerenderGenerate generate matchAll queue ctx).2 = queue := by
  unfold prerenderGenerate
  split
  · rfl
  · split
    · rfl
    · dsimp only
      split
      · rfl
      · split
        · rfl
        · rename_i hne
          exact absurd (beq_iff_eq.mpr h) hne

/-- Witness for C2: a page whose markup carries a browser directive but
whose route rules merge to the suppression sentinel is not queued, even
on a full-site generate run. -/
theorem c2_route_rule_suppression_witness :
    (resolveRouteRules ((fun _ => [{ ogImage := some OgRule.suppress }]) wCtxA.route)).ogImage
      = some OgRule.suppress ∧
    extractOgImageOptions wHtml =
      some { provider := some "browser", static := some true } ∧
    (prerenderGenerate true (fun _ => [{ ogImage := some OgRule.suppress }]) [] wCtxA).2
      = [] :=
  ⟨by decide, by decide,
    c2_route_rule_suppression true (fun _ => [{ ogImage := some OgRule.suppress }]) [] wCtxA
      (by decide)⟩

/-- Claim C9: a page from which no directive was extracted is never
queued, even when matching route rules supply a non-false override
fragment for it. -/
theorem c9_no_directive_not_queued (generate : Bool)
    (matchAll : String → List NitroRouteRules)
    (queue : List OgImageOptions) (ctx : PrerenderCtx)
    (h : ∀ html, ctx.contents = some html → extractOgImageOptions html = none) :
    (prerenderGenerate generate matchAll queue ctx).2 = queue := by
  unfold prerenderGenerate
  split
  · rfl
  · split
    · rfl
    · rename_i html hc
      dsimp only
      rw [h html hc]

/-- Witness for C9: a page without a directive stays unqueued on a
generate run although a route rule supplies a browser-provider,
static-true override fragment for its route. -/
theorem c9_no_directive_not_queued_witness :
    (resolveRouteRules
        ((fun _ => [{ ogImage := some (OgRule.frag { provider := some "browser", static := some true }) }])
          wCtxNoDir.route)).ogImage
      = some (OgRule.frag { provider := some "browser", static := some true }) ∧
    (prerenderGenerate true
        (fun _ => [{ ogImage := some (OgRule.frag { provider := some "browser", static := some true }) }])
        [] wCtxNoDir).2 = [] :=
  ⟨by decide,
    c9_no_directive_not_queued true
      (fun _ => [{ ogImage := some (OgRule.frag { provider := some "browser", static := some true }) }])
      [] wCtxNoDir
      (by intro html h; injection h with h2; subst h2; rfl)⟩

/-- Claim C10: for every document route (no dot, not the internal
og-image route) with non-empty rendered contents, the stripped markup
is written back to the render context before any eligibility decision,
so the directive marker never reaches the final output, suppressed and
unqueued pages included. -/
theorem c10_strip_before_eligibility (generate : Bool)
    (matchAll : String → List NitroRouteRules)
    (queue : List OgImageOptions) (ctx : PrerenderCtx) (html : Html)
    (hdot : jsIncludes ctx.route "." = false)
    (hog : jsEndsWith ctx.route OG_ROUTE_SUFFIX = false)
    (hc : ctx.contents = some html) :
    (prerenderGenerate generate matchAll queue ctx).1.contents
      = some (stripOgImageOptions html) ∧
    (stripOgImageOptions html).directive = none := by
  refine ⟨?_, rfl⟩
  simp only [prerenderGenerate, hdot, hog, hc, Bool.or_self]
  rw [if_neg (by simp)]
  split
  · rfl
  · split
    · rfl
    · split <;> rfl

/-- Witness for C10: a page with a directive that is suppressed by a
route rule still gets its marker stripped from the written-back
contents. -/
theorem c10_strip_before_eligibility_witness :
    jsIncludes wCtxA.route "." = false ∧
    jsEndsWith wCtxA.route OG_ROUTE_SUFFIX = false ∧
    wCtxA.contents = some wHtml ∧
    ((prerenderGenerate true (fun _ => [{ ogImage := some OgRule.suppress }]) [] wCtxA).1.contents
        = some (stripOgImageOptions wHtml) ∧
      (stripOgImageOptions wHtml).directive = none) :=
  ⟨by decide, by decide, rfl,
    c10_strip_before_eligibility true (fun _ => [{ ogImage := some OgRule.suppress }]) [] wCtxA wHtml
      (by decide) (by decide) rfl⟩

/-- Counterexample to C7 as stated: take the match list in the order the
claim asserts the matcher returns it, most specific first, with the
most specific rule defining width 100 and the less specific one width
200. Reversing and merging with defu (leftmost priority) yields 200,
the value of the LEAST specific rule, not the claimed 100. -/
theorem c7_counterexample :
    (resolveRouteRules
        [{ ogImage := some (OgRule.frag { width := some 100 }) },
         { ogImage := some (OgRule.frag { width := some 200 }) }]).ogImage
      = some (OgRule.frag { width := some 200 }) ∧
    (resolveRouteRules
        [{ ogImage := some (OgRule.frag { width := some 100 }) },
         { ogImage := some (OgRule.frag { width := some 200 }) }]).ogImage
      ≠ some (OgRule.frag { width := some 100 }) := by
  decide

/-- Claim C7 amended: the radix matcher returns its match list least
specific FIRST; line 280 reverses that list and merges with defu, whose
leftmost argument wins, so each field of the merged override takes the
value of the most specific matching rule that defines it, that is the
LAST rule of the match list defining the field (`lastSome`). Stated for
match lists whose rules all carry override fragments. -/
theorem c7_cascade_amended (ms : List NitroRouteRules) (fs : List OgFragment)
    (h : ms = fs.map (fun f => ({ ogImage := some (OgRule.frag f) } : NitroRouteRules)))
    (hne : fs ≠ []) :
    ∃ merged, (resolveRouteRules ms).ogImage = some (OgRule.frag merged) ∧
      merged.component = lastSome (fs.map OgFragment.component) ∧
      merged.width = lastSome (fs.map OgFragment.width) ∧
      merged.height = lastSome (fs.map OgFragment.height) ∧
      merged.provider = lastSome (fs.map OgFragment.provider) ∧
      merged.static = lastSome (fs.map OgFragment.static) := by
  subst h
  unfold resolveRouteRules defuAll
  rw [← List.map_reverse]
  cases hrev : fs.reverse with
  | nil => exact absurd (by simpa using congrArg List.reverse hrev) hne
  | cons f0 rest =>
    simp only [List.map_cons, List.foldl_cons]
    have hstep : defuRules {} { ogImage := some (OgRule.frag f0) }
        = { ogImage := some (OgRule.frag f0) } := rfl
    rw [hstep, foldl_frag_rules]
    refine ⟨rest.foldl defuFrag f0, rfl, ?_, ?_, ?_, ?_, ?_⟩
    · rw [foldl_defuFrag_field OgFragment.component (fun a b => rfl) rest f0,
        ← firstSome_cons, ← List.map_cons, ← hrev, List.map_reverse]
      rfl
    · rw [foldl_defuFrag_field OgFragment.width (fun a b => rfl) rest f0,
        ← firstSome_cons, ← List.map_cons, ← hrev, List.map_reverse]
      rfl
    · rw [foldl_defuFrag_field OgFragment.height (fun a b => rfl) rest f0,
        ← firstSome_cons, ← List.map_cons, ← hrev, List.map_reverse]
      rfl
    · rw [foldl_defuFrag_field OgFragment.provider (fun a b => rfl) rest f0,
        ← firstSome_cons, ← List.map_cons, ← hrev, List.map_reverse]
      rfl
    · rw [foldl_defuFrag_field OgFragment.static (fun a b => rfl) rest f0,
        ← firstSome_cons, ← List.map_cons, ← hrev, List.map_reverse]
      rfl

/-- Witness for the amended C7: a general rule (width 200, provider x)
followed by a more specific rule (width 100) in least-specific-first
order merge so that the specific width 100 wins while the provider is
inherited from the general rule. -/
theorem c7_cascade_amended_witness :
    ([{ ogImage := some (OgRule.frag { width := some 200, provider := some "x" }) },
      { ogImage := some (OgRule.frag { width := some 100 }) }]
      : List NitroRouteRules)
      = ([{ width := some 200, provider := some "x" }, { width := some 100 }]
          : List OgFragment).map
          (fun f => ({ ogImage := some (OgRule.frag f) } : NitroRouteRules)) ∧
    ([{ width := some 200, provider := some "x" }, { width := some 100 }]
        : List OgFragment) ≠ [] ∧
    ∃ merged,
      (resolveRouteRules
          [{ ogImage := some (OgRule.frag { width := some 200, provider := some "x" }) },
           { ogImage := some (OgRule.frag { width := some 100 }) }]).ogImage
        = some (OgRule.frag merged) ∧
      merged.component = lastSome (([{ width := some 200, provider := some "x" },
          { width := some 100 }] : List OgFragment).map OgFragment.component) ∧
      merged.width = lastSome (([{ width := some 200, provider := some "x" },
          { width := some 100 }] : List OgFragment).map OgFragment.width) ∧
      merged.height = lastSome (([{ width := some 200, provider := some "x" },
          { width := some 100 }] : List OgFragment).map OgFragment.height) ∧
      merged.provider = lastSome (([{ width := some 200, provider := some "x" },
          { width := some 100 }] : List OgFragment).map OgFragment.provider) ∧
      merged.static = lastSome (([{ width := some 200, provider := some "x" },
          { width := some 100 }] : List OgFragment).map OgFragment.static) :=
  ⟨rfl, by decide,
    c7_cascade_amended _ [{ width := some 200, provider := some "x" }, { width := some 100 }]
      rfl (by decide)⟩

/-- Claim C3: the queue is drained in exactly the order entries were
enqueued: the sequence of capture URLs attempted and the sequence of
per-entry report lines both mirror the queue, entry by entry, with no
reordering, deduplication or skipping (stated for runs whose setup
succeeds, so that the drain loop is reached). -/
theorem c3_fifo_drain_order (env : CaptureEnv) (pd : String)
    (q : List OgImageOptions) (raw : String)
    (hb : env.browser = BrowserLaunch.launchOk)
    (hh : waitForHost env.hostChunks = PromiseOutcome.resolved (some raw)) :
    (captureScreenshots env pd q).attempts = q.map (fun e => jsTrim raw ++ e.path) ∧
    (captureScreenshots env pd q).lines.map (fun l => l.text)
      = q.map (fun e => relativePath pd (entryFilename pd e.ctx.fileName)) ∧
    (captureScreenshots env pd q).results.length = q.length := by
  unfold captureScreenshots
  rw [hh, hb]
  cases q with
  | nil => simp
  | cons e rest =>
    rw [if_neg (by simp)]
    refine ⟨drainFrom_urls env pd (jsTrim raw) _ _ 0, ?_, ?_⟩
    · rw [List.map_map]
      exact drainFrom_texts env pd (jsTrim raw) _ _ 0
    · rw [List.length_map, drainFrom_length]

/-- Witness for C3: a healthy two-entry run attempts the two URLs in
queue order and reports the two files in queue order. -/
theorem c3_fifo_drain_order_witness :
    wEnvOk.browser = BrowserLaunch.launchOk ∧
    waitForHost wEnvOk.hostChunks
      = PromiseOutcome.resolved (some "http://localhost:3000\n") ∧
    ((captureScreenshots wEnvOk "dist" [wEntry "/a" "a/index.html", wEntry "/b" "b/index.html"]).attempts
        = [wEntry "/a" "a/index.html", wEntry "/b" "b/index.html"].map
            (fun e => jsTrim "http://localhost:3000\n" ++ e.path) ∧
      (captureScreenshots wEnvOk "dist" [wEntry "/a" "a/index.html", wEntry "/b" "b/index.html"]).lines.map
          (fun l => l.text)
        = [wEntry "/a" "a/index.html", wEntry "/b" "b/index.html"].map
            (fun e => relativePath "dist" (entryFilename "dist" e.ctx.fileName)) ∧
      (captureScreenshots wEnvOk "dist" [wEntry "/a" "a/index.html", wEntry "/b" "b/index.html"]).results.length
        = [wEntry "/a" "a/index.html", wEntry "/b" "b/index.html"].length) :=
  ⟨rfl, by decide,
    c3_fifo_drain_order wEnvOk "dist" [wEntry "/a" "a/index.html", wEntry "/b" "b/index.html"]
      "http://localhost:3000\n" rfl (by decide)⟩

/-- Claim C4: a throwing capture or file write is caught per entry, the
entry is recorded as failed, and every subsequent entry is still
processed: the results list matches the queue index for index (an entry
fails exactly when its screenshot or write fails) and one report line
is emitted per entry, so the batch never aborts early. -/
theorem c4_per_entry_failure_isolation (env : CaptureEnv) (pd : String)
    (q : List OgImageOptions) (raw : String)
    (hb : env.browser = BrowserLaunch.launchOk)
    (hh : waitForHost env.hostChunks = PromiseOutcome.resolved (some raw)) :
    (captureScreenshots env pd q).results
      = (List.range q.length).map (fun k => !(env.screenshotOk k && env.writeOk k)) ∧
    (captureScreenshots env pd q).lines.length = q.length := by
  unfold captureScreenshots
  rw [hh, hb]
  cases q with
  | nil => simp
  | cons e rest =>
    rw [if_neg (by simp)]
    refine ⟨?_, ?_⟩
    · simpa using drainFrom_results env pd (jsTrim raw) (e :: rest).length (e :: rest) 0
    · rw [List.length_map, drainFrom_length]

/-- Witness for C4, scenario C: three entries, the capture of the second
throws, and the run yields results success, failure, success with three
report lines. -/
theorem c4_per_entry_failure_isolation_witness :
    wEnvFailSecond.browser = BrowserLaunch.launchOk ∧
    waitForHost wEnvFailSecond.hostChunks
      = PromiseOutcome.resolved (some "http://localhost:3000\n") ∧
    ((captureScreenshots wEnvFailSecond "dist"
          [wEntry "/a" "a/index.html", wEntry "/b" "b/index.html", wEntry "/c" "c/index.html"]).results
        = (List.range 3).map (fun k => !(wEnvFailSecond.screenshotOk k && wEnvFailSecond.writeOk k)) ∧
      (captureScreenshots wEnvFailSecond "dist"
          [wEntry "/a" "a/index.html", wEntry "/b" "b/index.html", wEntry "/c" "c/index.html"]).lines.length
        = 3) ∧
    (captureScreenshots wEnvFailSecond "dist"
        [wEntry "/a" "a/index.html", wEntry "/b" "b/index.html", wEntry "/c" "c/index.html"]).results
      = [false, true, false] :=
  ⟨rfl, by decide,
    c4_per_entry_failure_isolation wEnvFailSecond "dist"
      [wEntry "/a" "a/index.html", wEntry "/b" "b/index.html", wEntry "/c" "c/index.html"]
      "http://localhost:3000\n" rfl (by decide),
    by decide⟩

/-- Claim C5: in every completed batch run the server subprocess is
spawned at most once and the browser launched at most once; the
subprocess is killed exactly as often as it was spawned, and the
browser session is closed exactly once precisely when a session was
obtained, on every exit path, failures and mid-batch exceptions
included. (A run that suspends forever on the readiness await never
reaches any exit path, hence the completion hypothesis.) -/
theorem c5_resource_lifecycle (env : CaptureEnv) (pd : String)
    (q : List OgImageOptions)
    (hfin : (captureScreenshots env pd q).hung = false) :
    (captureScreenshots env pd q).spawnCount ≤ 1 ∧
    (captureScreenshots env pd q).browserCreateCount ≤ 1 ∧
    (captureScreenshots env pd q).killCount = (captureScreenshots env pd q).spawnCount ∧
    (captureScreenshots env pd q).browserCloseCount ≤ 1 ∧
    (captureScreenshots env pd q).browserCloseCount
      = (if env.browser == BrowserLaunch.launchOk
            && (captureScreenshots env pd q).browserCreateCount == 1 then 1 else 0) := by
  unfold captureScreenshots at hfin ⊢
  cases q with
  | nil => cases env.browser <;> simp
  | cons e rest =>
    rw [if_neg (by simp)] at hfin ⊢
    cases hwf : waitForHost env.hostChunks with
    | pending => rw [hwf] at hfin; simp at hfin
    | resolved v =>
      cases v with
      | none => cases env.browser <;> simp
      | some raw => cases hbr : env.browser <;> simp [hbr]

/-- Witness for C5: a run whose browser launch throws and whose jobs
would all fail still kills the spawned subprocess exactly once and
closes no session (none was obtained). -/
theorem c5_resource_lifecycle_witness :
    (captureScreenshots wEnvThrow "dist" [wEntry "/a" "a/index.html"]).hung = false ∧
    ((captureScreenshots wEnvThrow "dist" [wEntry "/a" "a/index.html"]).spawnCount ≤ 1 ∧
      (captureScreenshots wEnvThrow "dist" [wEntry "/a" "a/index.html"]).browserCreateCount ≤ 1 ∧
      (captureScreenshots wEnvThrow "dist" [wEntry "/a" "a/index.html"]).killCount
        = (captureScreenshots wEnvThrow "dist" [wEntry "/a" "a/index.html"]).spawnCount ∧
      (captureScreenshots wEnvThrow "dist" [wEntry "/a" "a/index.html"]).browserCloseCount ≤ 1 ∧
      (captureScreenshots wEnvThrow "dist" [wEntry "/a" "a/index.html"]).browserCloseCount
        = (if wEnvThrow.browser == BrowserLaunch.launchOk
              && (captureScreenshots wEnvThrow "dist" [wEntry "/a" "a/index.html"]).browserCreateCount == 1
            then 1 else 0)) :=
  ⟨by decide,
    c5_resource_lifecycle wEnvThrow "dist" [wEntry "/a" "a/index.html"] (by decide)⟩

/-- Claim C6: after any completed drain the queue is reset to empty, so
the second of the two build-lifecycle hooks firing in the same run is a
safe no-op: invoked on the already-drained queue it spawns no
subprocess, launches no browser and emits no report lines. -/
theorem c6_empty_queue_noop (env env2 : CaptureEnv) (pd pd2 : String)
    (q : List OgImageOptions)
    (hfin : (captureScreenshots env pd q).hung = false) :
    (captureScreenshots env pd q).finalQueue = [] ∧
    (captureScreenshots env2 pd2 ((captureScreenshots env pd q).finalQueue)).spawnCount = 0 ∧
    (captureScreenshots env2 pd2 ((captureScreenshots env pd q).finalQueue)).browserCreateCount = 0 ∧
    (captureScreenshots env2 pd2 ((captureScreenshots env pd q).finalQueue)).attempts = [] ∧
    (captureScreenshots env2 pd2 ((captureScreenshots env pd q).finalQueue)).lines = [] := by
  have hq : (captureScreenshots env pd q).finalQueue = [] := by
    unfold captureScreenshots at hfin ⊢
    cases q with
    | nil => simp
    | cons e rest =>
      rw [if_neg (by simp)] at hfin ⊢
      cases hwf : waitForHost env.hostChunks with
      | pending => rw [hwf] at hfin; simp at hfin
      | resolved v =>
        cases v with
        | none => rfl
        | some raw => cases env.browser <;> rfl
  refine ⟨hq, ?_, ?_, ?_, ?_⟩ <;> rw [hq] <;> rfl

/-- Witness for C6: after a one-entry run (here one whose browser launch
throws), the queue is empty and re-triggering the batch performs no
setup and reports nothing. -/
theorem c6_empty_queue_noop_witness :
    (captureScreenshots wEnvThrow "dist" [wEntry "/a" "a/index.html"]).hung = false ∧
    ((captureScreenshots wEnvThrow "dist" [wEntry "/a" "a/index.html"]).finalQueue = [] ∧
      (captureScreenshots wEnvOk "dist"
          ((captureScreenshots wEnvThrow "dist" [wEntry "/a" "a/index.html"]).finalQueue)).spawnCount = 0 ∧
      (captureScreenshots wEnvOk "dist"
          ((captureScreenshots wEnvThrow "dist" [wEntry "/a" "a/index.html"]).finalQueue)).browserCreateCount = 0 ∧
      (captureScreenshots wEnvOk "dist"
          ((captureScreenshots wEnvThrow "dist" [wEntry "/a" "a/index.html"]).finalQueue)).attempts = [] ∧
      (captureScreenshots wEnvOk "dist"
          ((captureScreenshots wEnvThrow "dist" [wEntry "/a" "a/index.html"]).finalQueue)).lines = []) :=
  ⟨by decide,
    c6_empty_queue_noop wEnvThrow wEnvOk "dist" "dist" [wEntry "/a" "a/index.html"] (by decide)⟩

/-- Counterexample to C8 as stated: a server stdout stream that closes
without ever containing the ready marker leaves the readiness promise
pending forever. The executor registers no exit, close or error
handler and never calls reject, so the wait does not fail: it pends. -/
theorem c8_counterexample :
    waitForHost ["npm ERR! address in use", "process exited"]
      = PromiseOutcome.pending := by
  decide

/-- Claim C8 amended: the readiness wait resolves with the JS split
remainder of the FIRST data chunk containing the ready marker; if no
chunk of the stream ever contains the marker the promise never settles
(it pends forever rather than rejecting, since the code installs no
exit or close handler). -/
theorem c8_readiness_amended (chunks : List String) :
    (∀ c, chunks.find? (fun s => jsIncludes s READY_CHECK) = some c →
        waitForHost chunks = PromiseOutcome.resolved (jsSplitSecond c READY_SPLIT)) ∧
    (chunks.find? (fun s => jsIncludes s READY_CHECK) = none →
        waitForHost chunks = PromiseOutcome.pending) := by
  induction chunks with
  | nil => exact ⟨fun c h => by simp at h, fun _ => rfl⟩
  | cons x rest ih =>
    constructor
    · intro c h
      by_cases hx : jsIncludes x READY_CHECK = true
      · simp only [List.find?_cons, hx, cond_true] at h
        cases h
        unfold waitForHost
        rw [if_pos hx]
      · have hx2 : jsIncludes x READY_CHECK = false := by simpa using hx
        simp only [List.find?_cons, hx2, cond_false] at h
        unfold waitForHost
        rw [if_neg hx]
        exact ih.1 c h
    · intro h
      by_cases hx : jsIncludes x READY_CHECK = true
      · simp only [List.find?_cons, hx, cond_true] at h
        exact absurd h (by simp)
      · have hx2 : jsIncludes x READY_CHECK = false := by simpa using hx
        simp only [List.find?_cons, hx2, cond_false] at h
        unfold waitForHost
        rw [if_neg hx]
        exact ih.2 h

/-- Witness for the amended C8: a stream whose second chunk carries the
ready marker resolves with the text after the marker of that chunk. -/
theorem c8_readiness_amended_witness :
    (["serving", wChunk].find? (fun s => jsIncludes s READY_CHECK) = some wChunk) ∧
    waitForHost ["serving", wChunk]
      = PromiseOutcome.resolved (jsSplitSecond wChunk READY_SPLIT) :=
  ⟨by decide, (c8_readiness_amended ["serving", wChunk]).1 wChunk (by decide)⟩

end NuxtOgImage
